import Mathlib

/-!
Verification development for the crypto-signal-system messaging and
worker-supervision core.

The definitions below are a shallow embedding of
`backend/bots/shared/messaging/message_types.py`,
`backend/bots/shared/messaging/event_publisher.py`,
`backend/bots/shared/messaging/rabbitmq_client.py`,
`backend/bots/shared/core/base_bot.py` and
`backend/bots/shared/core/exceptions.py`.

Python floats and Decimals are modelled as rationals, Python `datetime`
values as a record of calendar fields, machine dictionaries as association
lists, and raised exceptions as `Except`/`Option` results.
-/

namespace CryptoSignal

/-! ## MessageType and MessagePriority (message_types.py, class MessageType / MessagePriority) -/

/-- The `MessageType` string enum: every message tag the system knows. -/
inductive MessageType where
  | PRICE_UPDATE | ORDERBOOK_UPDATE | TRADE_UPDATE
  | NEWS_ARTICLE | SENTIMENT_UPDATE | NEWS_ALERT
  | SIGNAL_GENERATED | SIGNAL_VALIDATED | SIGNAL_INVALIDATED
  | SIGNAL_EXECUTED | SIGNAL_CLOSED
  | TECHNICAL_ANALYSIS | ITC_ANALYSIS | PATTERN_DETECTED
  | PREDICTION_UPDATE | MODEL_TRAINED | MODEL_DEPLOYED
  | BOT_STARTED | BOT_STOPPED | BOT_ERROR | BOT_HEARTBEAT
  | NOTIFICATION | ALERT
  | COMMAND | RESPONSE
  deriving DecidableEq, Repr

/-- The `.value` string of each `MessageType` member. -/
def MessageType.value : MessageType → String
  | .PRICE_UPDATE => "price_update"
  | .ORDERBOOK_UPDATE => "orderbook_update"
  | .TRADE_UPDATE => "trade_update"
  | .NEWS_ARTICLE => "news_article"
  | .SENTIMENT_UPDATE => "sentiment_update"
  | .NEWS_ALERT => "news_alert"
  | .SIGNAL_GENERATED => "signal_generated"
  | .SIGNAL_VALIDATED => "signal_validated"
  | .SIGNAL_INVALIDATED => "signal_invalidated"
  | .SIGNAL_EXECUTED => "signal_executed"
  | .SIGNAL_CLOSED => "signal_closed"
  | .TECHNICAL_ANALYSIS => "technical_analysis"
  | .ITC_ANALYSIS => "itc_analysis"
  | .PATTERN_DETECTED => "pattern_detected"
  | .PREDICTION_UPDATE => "prediction_update"
  | .MODEL_TRAINED => "model_trained"
  | .MODEL_DEPLOYED => "model_deployed"
  | .BOT_STARTED => "bot_started"
  | .BOT_STOPPED => "bot_stopped"
  | .BOT_ERROR => "bot_error"
  | .BOT_HEARTBEAT => "bot_heartbeat"
  | .NOTIFICATION => "notification"
  | .ALERT => "alert"
  | .COMMAND => "command"
  | .RESPONSE => "response"

/-- The enum constructor call `MessageType(s)`: returns the member whose
value is `s`, or `none` where Python raises `ValueError`. -/
def MessageType.ofValue : String → Option MessageType
  | "price_update" => some .PRICE_UPDATE
  | "orderbook_update" => some .ORDERBOOK_UPDATE
  | "trade_update" => some .TRADE_UPDATE
  | "news_article" => some .NEWS_ARTICLE
  | "sentiment_update" => some .SENTIMENT_UPDATE
  | "news_alert" => some .NEWS_ALERT
  | "signal_generated" => some .SIGNAL_GENERATED
  | "signal_validated" => some .SIGNAL_VALIDATED
  | "signal_invalidated" => some .SIGNAL_INVALIDATED
  | "signal_executed" => some .SIGNAL_EXECUTED
  | "signal_closed" => some .SIGNAL_CLOSED
  | "technical_analysis" => some .TECHNICAL_ANALYSIS
  | "itc_analysis" => some .ITC_ANALYSIS
  | "pattern_detected" => some .PATTERN_DETECTED
  | "prediction_update" => some .PREDICTION_UPDATE
  | "model_trained" => some .MODEL_TRAINED
  | "model_deployed" => some .MODEL_DEPLOYED
  | "bot_started" => some .BOT_STARTED
  | "bot_stopped" => some .BOT_STOPPED
  | "bot_error" => some .BOT_ERROR
  | "bot_heartbeat" => some .BOT_HEARTBEAT
  | "notification" => some .NOTIFICATION
  | "alert" => some .ALERT
  | "command" => some .COMMAND
  | "response" => some .RESPONSE
  | _ => none

/-- The `MessagePriority` int enum. -/
inductive MessagePriority where
  | LOW | NORMAL | HIGH | CRITICAL
  deriving DecidableEq, Repr

/-- The `.value` integer of each `MessagePriority` member (1-4). -/
def MessagePriority.value : MessagePriority → ℤ
  | .LOW => 1
  | .NORMAL => 2
  | .HIGH => 3
  | .CRITICAL => 4

/-- The enum constructor call `MessagePriority(n)`; `none` where Python
raises `ValueError`. -/
def MessagePriority.ofValue : ℤ → Option MessagePriority
  | 1 => some .LOW
  | 2 => some .NORMAL
  | 3 => some .HIGH
  | 4 => some .CRITICAL
  | _ => none

/-! ## datetime values and the ISO-8601 wire format

`BaseMessage.to_dict` writes `timestamp.isoformat()` and
`BaseMessage.from_dict` parses it back with `datetime.fromisoformat`.
A datetime is modelled by its calendar fields; `isoformat` is the
fixed-width rendering `YYYY-MM-DDTHH:MM:SS.ffffff` (microsecond
precision, as produced by the datetimes this system builds). -/

/-- Zero-padded base-10 rendering of `n` on exactly `k` digits
(least significant digit written last). -/
def padDigits : ℕ → ℕ → List Char
  | 0, _ => []
  | k + 1, n => padDigits k (n / 10) ++ [Nat.digitChar (n % 10)]

/-- Numeric value of a digit string (assumes all characters are digits). -/
def parseDigits (l : List Char) : ℕ :=
  l.foldl (fun a c => 10 * a + (c.toNat - 48)) 0

/-- Read exactly `k` digit characters from the front of `l`, returning
their value and the rest of the input. -/
def readN (k : ℕ) (l : List Char) : Option (ℕ × List Char) :=
  let pre := l.take k
  if pre.length = k ∧ pre.all Char.isDigit = true then some (parseDigits pre, l.drop k)
  else none

/-- Consume one expected separator character. -/
def expectChar (c : Char) : List Char → Option (List Char)
  | [] => none
  | x :: r => if x = c then some r else none

/-- A Python `datetime` value, by calendar fields. -/
structure DateTime where
  year : ℕ
  month : ℕ
  day : ℕ
  hour : ℕ
  minute : ℕ
  second : ℕ
  microsecond : ℕ
  deriving DecidableEq, Repr

/-- Field widths fit the fixed-width rendering (Python enforces stricter
calendar ranges; these bounds are what the round trip needs). -/
def DateTime.wf (d : DateTime) : Prop :=
  d.year < 10000 ∧ d.month < 100 ∧ d.day < 100 ∧ d.hour < 100 ∧
    d.minute < 100 ∧ d.second < 100 ∧ d.microsecond < 1000000

instance (d : DateTime) : Decidable d.wf := by
  unfold DateTime.wf; infer_instance

/-- `datetime.isoformat()`: `YYYY-MM-DDTHH:MM:SS.ffffff` as characters. -/
def isoChars (d : DateTime) : List Char :=
  padDigits 4 d.year ++ '-' ::
    (padDigits 2 d.month ++ '-' ::
      (padDigits 2 d.day ++ 'T' ::
        (padDigits 2 d.hour ++ ':' ::
          (padDigits 2 d.minute ++ ':' ::
            (padDigits 2 d.second ++ '.' :: padDigits 6 d.microsecond)))))

/-- `datetime.isoformat()` as a string. -/
def isoformat (d : DateTime) : String := String.mk (isoChars d)

/-- `datetime.fromisoformat` on the character list. -/
def fromisoChars (l : List Char) : Option DateTime := do
  let (y, l) ← readN 4 l
  let l ← expectChar '-' l
  let (mo, l) ← readN 2 l
  let l ← expectChar '-' l
  let (dy, l) ← readN 2 l
  let l ← expectChar 'T' l
  let (h, l) ← readN 2 l
  let l ← expectChar ':' l
  let (mi, l) ← readN 2 l
  let l ← expectChar ':' l
  let (s, l) ← readN 2 l
  let l ← expectChar '.' l
  let (us, l) ← readN 6 l
  if l = [] then some ⟨y, mo, dy, h, mi, s, us⟩ else none

/-- `datetime.fromisoformat`: parse the textual timestamp, `none` where
Python raises `ValueError`. -/
def fromisoformat (s : String) : Option DateTime := fromisoChars s.data

/-! ## Python values on a message (field and metadata values)

Python floats and `Decimal`s are both modelled by the rational they
denote, with distinct constructors since they are distinct runtime
types; dictionaries are association lists. -/

/-- A Python value as it can occur in message fields or metadata. -/
inductive PyVal where
  | pnone
  | pbool (b : Bool)
  | pint (n : ℤ)
  | pflt (q : ℚ)
  | pdec (q : ℚ)
  | pstr (s : String)
  | pdt (d : DateTime)
  | plist (xs : List PyVal)
  | pdict (kvs : List (String × PyVal))

/-- IEEE-754 round-to-nearest with ties to even, used by `float(Decimal)`. -/
def roundTiesEven (x : ℚ) : ℤ :=
  let f := Int.floor x
  let r := x - f
  if r < 1 / 2 then f
  else if 1 / 2 < r then f + 1
  else if f % 2 = 0 then f else f + 1

/-- The Python conversion `float(d)` of a `Decimal`, modelled as rounding
to the nearest binary64 value (normal range; 53-bit significand). -/
def floatOfDec (q : ℚ) : ℚ :=
  if q = 0 then 0
  else
    let a := |q|
    let e := Int.log 2 a
    let m := roundTiesEven (a * (2 : ℚ) ^ ((52 : ℤ) - e))
    let mag := (m : ℚ) * (2 : ℚ) ^ (e - (52 : ℤ))
    if q < 0 then -mag else mag

mutual

/-- `BaseMessage._convert_decimals`: recursively convert `Decimal` to float. -/
def convertDecimals : PyVal → PyVal
  | .pdict kvs => .pdict (convertDecimalsKV kvs)
  | .plist xs => .plist (convertDecimalsL xs)
  | .pdec q => .pflt (floatOfDec q)
  | v => v

/-- `_convert_decimals` mapped over a list. -/
def convertDecimalsL : List PyVal → List PyVal
  | [] => []
  | v :: vs => convertDecimals v :: convertDecimalsL vs

/-- `_convert_decimals` mapped over a dictionary's values. -/
def convertDecimalsKV : List (String × PyVal) → List (String × PyVal)
  | [] => []
  | (k, v) :: kvs => (k, convertDecimals v) :: convertDecimalsKV kvs

end

mutual

/-- Whether `json.dumps` accepts the value: `datetime` and `Decimal`
(which raises a `TypeError` inside `dumps`) are not serializable. -/
def serializable : PyVal → Bool
  | .pnone => true
  | .pbool _ => true
  | .pint _ => true
  | .pflt _ => true
  | .pdec _ => false
  | .pstr _ => true
  | .pdt _ => false
  | .plist xs => serializableL xs
  | .pdict kvs => serializableKV kvs

/-- `serializable` over a list. -/
def serializableL : List PyVal → Bool
  | [] => true
  | v :: vs => serializable v && serializableL vs

/-- `serializable` over a dictionary's values. -/
def serializableKV : List (String × PyVal) → Bool
  | [] => true
  | (_, v) :: kvs => serializable v && serializableKV kvs

end

/-! ## The message envelope and the encode/decode pipeline

The source nests the payload-variant dataclasses inside another class
body; following the intended structure, every variant is a sibling
sharing the `BaseMessage` envelope.  A message is modelled by its
envelope fields plus its variant payload fields in declaration order
(`dataclasses.asdict` flattens them exactly this way). -/

/-- A message: the `BaseMessage` envelope plus the payload variant's own
fields as an ordered dictionary. -/
structure Msg where
  message_type : MessageType
  message_id : String
  timestamp : DateTime
  source_bot : String
  priority : MessagePriority
  metadata : List (String × PyVal)
  fields : List (String × PyVal)

/-- The envelope keys that `BaseMessage` itself declares. -/
def baseKeys : List String :=
  ["message_type", "message_id", "timestamp", "source_bot", "priority", "metadata"]

/-- `BaseMessage.to_dict`: `asdict`, enum values, ISO timestamp, then
`_convert_decimals` over the whole dictionary. -/
def Msg.to_dict (m : Msg) : List (String × PyVal) :=
  convertDecimalsKV
    (("message_type", .pstr m.message_type.value) ::
      ("message_id", .pstr m.message_id) ::
        ("timestamp", .pstr (isoformat m.timestamp)) ::
          ("source_bot", .pstr m.source_bot) ::
            ("priority", .pint m.priority.value) ::
              ("metadata", .pdict m.metadata) :: m.fields)

/-- `BaseMessage.to_json`: `json.dumps(self.to_dict())`.  The wire form is
modelled by the dictionary itself since `dumps`/`loads` round-trip
serializable values exactly; a non-serializable value makes `dumps`
raise `TypeError`. -/
def Msg.to_json (m : Msg) : Except String (List (String × PyVal)) :=
  let d := m.to_dict
  if serializableKV d = true then .ok d else .error ("TypeError")

/-- `data.get(k)` on the message dictionary. -/
def lookupKey (k : String) (data : List (String × PyVal)) : Option PyVal :=
  (data.find? (fun kv => kv.1 == k)).map (fun kv => kv.2)

/-- Required string field for `cls(**data)`; a missing or non-string value
is a constructor `TypeError` in the typed embedding. -/
def reqStr (k : String) (data : List (String × PyVal)) : Except String String :=
  match lookupKey k data with
  | some (.pstr s) => .ok s
  | some _ => .error ("TypeError")
  | none => .error ("TypeError")

/-- `from_dict`'s priority handling: `MessagePriority(data["priority"])`
when the key is present, the dataclass default `NORMAL` otherwise. -/
def parsePriority (data : List (String × PyVal)) : Except String MessagePriority :=
  match lookupKey ("priority") data with
  | none => .ok MessagePriority.NORMAL
  | some (.pint n) =>
    match MessagePriority.ofValue n with
    | some p => .ok p
    | none => .error ("ValueError")
  | some _ => .error ("ValueError")

/-- `from_dict`'s timestamp handling: `datetime.fromisoformat` when the
value is a string (the `isinstance` check), kept as-is when it is already
a datetime. -/
def parseTimestamp (data : List (String × PyVal)) : Except String DateTime :=
  match lookupKey ("timestamp") data with
  | some (.pstr s) =>
    match fromisoformat s with
    | some d => .ok d
    | none => .error ("ValueError")
  | some (.pdt d) => .ok d
  | some _ => .error ("TypeError")
  | none => .error ("TypeError")

/-- Metadata for `cls(**data)`: a present dictionary value, or the
dataclass default `{}`. -/
def parseMetadata (data : List (String × PyVal)) : Except String (List (String × PyVal)) :=
  match lookupKey ("metadata") data with
  | none => .ok []
  | some (.pdict kvs) => .ok kvs
  | some _ => .error ("TypeError")

/-- `MessageFactory.MESSAGE_CLASSES`: the discriminator-to-class map,
represented by the tag each class's `__post_init__` forces.  Tags with no
dedicated class fall back to `BaseMessage` (`none` here). -/
def messageClassTag : MessageType → Option MessageType
  | .PRICE_UPDATE => some .PRICE_UPDATE
  | .NEWS_ARTICLE => some .NEWS_ARTICLE
  | .SIGNAL_GENERATED => some .SIGNAL_GENERATED
  | .TECHNICAL_ANALYSIS => some .TECHNICAL_ANALYSIS
  | .PATTERN_DETECTED => some .PATTERN_DETECTED
  | .PREDICTION_UPDATE => some .PREDICTION_UPDATE
  | .NOTIFICATION => some .NOTIFICATION
  | .BOT_HEARTBEAT => some .BOT_HEARTBEAT
  | .COMMAND => some .COMMAND
  | .RESPONSE => some .RESPONSE
  | _ => none

/-- `message_class.from_dict(data)`: enum/timestamp conversions, then the
dataclass constructor and `__post_init__`.  Variant classes receive the
non-envelope keys as their payload fields; the `BaseMessage` fallback has
no extra parameters, so leftover keys are a `TypeError`. -/
def from_dict (tag : MessageType) (data : List (String × PyVal)) : Except String Msg :=
  match reqStr ("message_id") data with
  | .error e => .error e
  | .ok mid =>
    match parseTimestamp data with
    | .error e => .error e
    | .ok ts =>
      match reqStr ("source_bot") data with
      | .error e => .error e
      | .ok src =>
        match parsePriority data with
        | .error e => .error e
        | .ok prio =>
          match parseMetadata data with
          | .error e => .error e
          | .ok meta =>
            match messageClassTag tag with
            | some c =>
              .ok ⟨c, mid, ts, src, prio, meta,
                data.filter (fun kv => !(baseKeys.contains kv.1))⟩
            | none =>
              match data.filter (fun kv => !(baseKeys.contains kv.1)) with
              | [] => .ok ⟨tag, mid, ts, src, prio, meta, []⟩
              | _ :: _ => .error ("TypeError")

/-- `MessageFactory.create_message`: read the discriminator
(`MessageType(data.get("message_type"))`, which raises `ValueError` for an
unknown tag), choose the class, and run its `from_dict`. -/
def create_message (data : List (String × PyVal)) : Except String Msg :=
  match lookupKey ("message_type") data with
  | some (.pstr s) =>
    match MessageType.ofValue s with
    | some t => from_dict t data
    | none => .error ("ValueError")
  | _ => .error ("ValueError")

/-- `MessageFactory.from_json`: `json.loads` then `create_message`
(`loads` is the identity on the modelled wire dictionary). -/
def from_json (wire : List (String × PyVal)) : Except String Msg :=
  create_message wire

/-- The round trip of claim C2: `MessageFactory.from_json(m.to_json())`. -/
def roundTrip (m : Msg) : Except String Msg :=
  m.to_json.bind from_json

/-- The shape of every wire dictionary `to_dict` produces: the six
envelope entries followed by the payload fields. -/
def wireList (t : MessageType) (mid : String) (ts : DateTime) (src : String)
    (p : MessagePriority) (meta fs : List (String × PyVal)) : List (String × PyVal) :=
  ("message_type", .pstr t.value) ::
    ("message_id", .pstr mid) ::
      ("timestamp", .pstr (isoformat ts)) ::
        ("source_bot", .pstr src) ::
          ("priority", .pint p.value) ::
            ("metadata", .pdict meta) :: fs

/-- A `NewsArticleMessage` as `publish_news_article` builds it: note the
`published_at` payload field is a `datetime` object, which
`BaseMessage.to_dict` leaves unconverted. -/
def newsArticleExample : Msg :=
  { message_type := .NEWS_ARTICLE,
    message_id := "news-bot_0a1b2c3d4e5f",
    timestamp := ⟨2024, 5, 1, 12, 0, 0, 0⟩,
    source_bot := "news-bot",
    priority := .NORMAL,
    metadata := [],
    fields :=
      [("article_id", .pstr ("a-1")),
        ("title", .pstr ("BTC rallies")),
        ("url", .pstr ("https://example.com/a-1")),
        ("source", .pstr ("rss")),
        ("published_at", .pdt ⟨2024, 5, 1, 11, 0, 0, 0⟩),
        ("symbol", .pstr ("BTC")),
        ("sentiment_score", .pflt (mkRat 4 5)),
        ("sentiment_label", .pstr ("positive")),
        ("impact_score", .pflt 70),
        ("impact_level", .pstr ("HIGH")),
        ("summary", .pnone),
        ("category", .pstr ("GENERAL")),
        ("keywords", .plist [])] }

/-- A `SignalMessage` on the wire, with only JSON-serializable payload
values. -/
def signalWireExample : Msg :=
  { message_type := .SIGNAL_GENERATED,
    message_id := "signal-bot_0a1b2c3d4e5f",
    timestamp := ⟨2024, 5, 1, 12, 30, 0, 123456⟩,
    source_bot := "signal-bot",
    priority := .HIGH,
    metadata := [("strategy", .pstr ("momentum"))],
    fields :=
      [("signal_id", .pstr ("SIG_001")),
        ("symbol", .pstr ("BTCUSDT")),
        ("signal_type", .pstr ("BUY")),
        ("timeframe", .pstr ("4h")),
        ("entry_price", .pflt 45000),
        ("stop_loss", .pflt 44000),
        ("take_profit_1", .pflt 49000),
        ("take_profit_2", .pnone),
        ("take_profit_3", .pnone),
        ("risk_reward_ratio", .pflt 4),
        ("position_size_recommended", .pnone),
        ("final_confidence", .pflt (mkRat 171 2)),
        ("technical_confidence", .pnone),
        ("sentiment_confidence", .pnone),
        ("itc_confidence", .pnone),
        ("ml_confidence", .pnone),
        ("market_regime", .pnone),
        ("volatility_level", .pnone),
        ("reasoning", .pstr ("Strong bullish momentum with RSI oversold")),
        ("key_levels", .pnone)] }

/-! ## The TradingSignal variant and its `validate()` (message_types.py)

`SignalMessage.validate` is embedded field-by-field.  Python's
fall-through `return None` is modelled by `Option Bool`: `some false` is
an explicit `return False`, `none` is falling off the end of the function
(the value `None`). -/

/-- The `SignalMessage` dataclass (envelope fields included). -/
structure SignalMessage where
  message_id : String
  timestamp : DateTime
  source_bot : String
  signal_id : String
  symbol : String
  signal_type : String
  timeframe : String
  entry_price : ℚ
  stop_loss : ℚ
  take_profit_1 : ℚ
  take_profit_2 : Option ℚ := none
  take_profit_3 : Option ℚ := none
  risk_reward_ratio : ℚ
  position_size_recommended : Option ℚ := none
  final_confidence : ℚ
  technical_confidence : Option ℚ := none
  sentiment_confidence : Option ℚ := none
  itc_confidence : Option ℚ := none
  ml_confidence : Option ℚ := none
  market_regime : Option String := none
  volatility_level : Option String := none
  reasoning : Option String := none
  key_levels : Option (List (String × ℚ)) := none
  deriving DecidableEq, Repr

/-- `SignalMessage.validate`: the `all([...])` guard and the per-side
price-ordering checks.  Every explicit return is `return False`; the
function body has no `return True`, so the success path yields `None`. -/
def SignalMessage.validate (s : SignalMessage) : Option Bool :=
  if ¬(s.signal_id ≠ "" ∧ s.symbol ≠ "" ∧
        (s.signal_type = "BUY" ∨ s.signal_type = "SELL") ∧
        0 < s.entry_price ∧ 0 < s.stop_loss ∧ 0 < s.take_profit_1 ∧
        4 ≤ s.risk_reward_ratio ∧
        0 ≤ s.final_confidence ∧ s.final_confidence ≤ 100) then
    some false
  else if s.signal_type = "BUY" ∧
      ¬(s.stop_loss < s.entry_price ∧ s.entry_price < s.take_profit_1) then
    some false
  else if s.signal_type = "SELL" ∧
      ¬(s.take_profit_1 < s.entry_price ∧ s.entry_price < s.stop_loss) then
    some false
  else
    none

/-- Python truthiness of the `Option Bool` result, as `if not
message.validate():` evaluates it (`None` is falsy). -/
def pyTruthy : Option Bool → Bool
  | none => false
  | some b => b

/-- The constraints of claim C1 on a signal's fields, stated from the
spec's words (side, positive prices, minimum reward:risk ratio 4.0,
confidence range, side-consistent price ordering). -/
def signalSpecOk (s : SignalMessage) : Prop :=
  s.signal_id ≠ "" ∧ s.symbol ≠ "" ∧
    (s.signal_type = "BUY" ∨ s.signal_type = "SELL") ∧
    0 < s.entry_price ∧ 0 < s.stop_loss ∧ 0 < s.take_profit_1 ∧
    4 ≤ s.risk_reward_ratio ∧
    0 ≤ s.final_confidence ∧ s.final_confidence ≤ 100 ∧
    (s.signal_type = "BUY" →
      s.stop_loss < s.entry_price ∧ s.entry_price < s.take_profit_1) ∧
    (s.signal_type = "SELL" →
      s.take_profit_1 < s.entry_price ∧ s.entry_price < s.stop_loss)

instance (s : SignalMessage) : Decidable (signalSpecOk s) := by
  unfold signalSpecOk; infer_instance

/-! ## Routing keys and the Event Publisher facade (event_publisher.py) -/

namespace RoutingKey

/-- `RoutingKey.price_update`. -/
def price_update (symbol : String) (timeframe : String := "*") : String :=
  "price." ++ symbol ++ "." ++ timeframe

/-- `RoutingKey.news`. -/
def news (symbol : String := "*") (category : String := "*") : String :=
  "news." ++ symbol ++ "." ++ category

/-- `RoutingKey.signal`. -/
def signal (symbol : String := "*") (signal_type : String := "*") : String :=
  "signal." ++ symbol ++ "." ++ signal_type

/-- `RoutingKey.technical`. -/
def technical (symbol : String := "*") (timeframe : String := "*") : String :=
  "technical." ++ symbol ++ "." ++ timeframe

/-- `RoutingKey.bot_event`. -/
def bot_event (bot_name : String) (event_type : String := "*") : String :=
  "bot." ++ bot_name ++ "." ++ event_type

/-- `RoutingKey.notification`. -/
def notification (level : String := "*") : String :=
  "notification." ++ level

end RoutingKey

/-- One call handed to `RabbitMQClient.publish` by the publisher facade. -/
structure PublishedSignal where
  message : SignalMessage
  exchange : String
  routing_key : String
  priority : MessagePriority
  deriving DecidableEq, Repr

/-- The priority rule inlined in `publish_signal`:
`HIGH if final_confidence >= 80 else NORMAL`. -/
def signalPriority (final_confidence : ℚ) : MessagePriority :=
  if 80 ≤ final_confidence then .HIGH else .NORMAL

/-- The priority table in `publish_notification` (a dict `.get` with
default `NORMAL`). -/
def notificationTypePriority (notification_type : String) : MessagePriority :=
  if notification_type = "INFO" then .LOW
  else if notification_type = "WARNING" then .NORMAL
  else if notification_type = "ERROR" then .HIGH
  else if notification_type = "ALERT" then .CRITICAL
  else .NORMAL

/-- The priority rule in `publish_news_article`:
`HIGH if impact_level in {"HIGH", "CRITICAL"} else NORMAL`. -/
def newsImpactPriority (impact_level : String) : MessagePriority :=
  if impact_level = "HIGH" ∨ impact_level = "CRITICAL" then .HIGH else .NORMAL

/-- The `SignalMessage(...)` construction at the top of `publish_signal`. -/
def mkSignalMessage (bot_name message_id : String) (now : DateTime)
    (signal_id symbol signal_type timeframe : String)
    (entry_price stop_loss take_profit_1 risk_reward_ratio final_confidence : ℚ) :
    SignalMessage :=
  { message_id := message_id, timestamp := now, source_bot := bot_name,
    signal_id := signal_id, symbol := symbol, signal_type := signal_type,
    timeframe := timeframe, entry_price := entry_price, stop_loss := stop_loss,
    take_profit_1 := take_profit_1, risk_reward_ratio := risk_reward_ratio,
    final_confidence := final_confidence }

/-- `EventPublisher.publish_signal`: build the `SignalMessage`, drop it
(returning after a log line) unless `message.validate()` is truthy, else
hand it to the bus client with the signal routing key and the
confidence-derived priority.  The generated `message_id` and the `now`
timestamp are passed in as parameters. -/
def publish_signal (bot_name message_id : String) (now : DateTime)
    (signal_id symbol signal_type timeframe : String)
    (entry_price stop_loss take_profit_1 risk_reward_ratio final_confidence : ℚ) :
    Option PublishedSignal :=
  let message := mkSignalMessage bot_name message_id now signal_id symbol signal_type
    timeframe entry_price stop_loss take_profit_1 risk_reward_ratio final_confidence
  if pyTruthy message.validate = false then none
  else
    some { message := message, exchange := "crypto_signals",
           routing_key := RoutingKey.signal symbol signal_type,
           priority := signalPriority final_confidence }

/-- The signal published by the repository's own messaging test
(`test_messaging.py`, `test_publisher`): a fully constraint-satisfying
BUY signal. -/
def sig001 : SignalMessage :=
  { message_id := "test-publisher_000000000001",
    timestamp := ⟨2024, 1, 1, 0, 0, 0, 0⟩,
    source_bot := "test-publisher",
    signal_id := "SIG_001", symbol := "BTCUSDT", signal_type := "BUY",
    timeframe := "4h", entry_price := 45000, stop_loss := 44000,
    take_profit_1 := 49000, risk_reward_ratio := 4, final_confidence := mkRat 171 2 }

/-- The scenario signal of claim C7 as `publish_signal` builds it. -/
def scenarioSignal : SignalMessage :=
  mkSignalMessage ("test-publisher") ("test-publisher_000000000001")
    ⟨2024, 1, 1, 0, 0, 0, 0⟩ ("SIG_001") ("BTCUSDT") ("BUY") ("4h")
    45000 44000 49000 4 (mkRat 171 2)

/-! ## The retry decorator (exceptions.py, retry_on_error)

`retry_on_error(max_attempts, delay, backoff)` runs attempts 1 up to
`max_attempts`; a failing attempt other than the last sleeps
`current_delay` and multiplies it by `backoff`; the last failing attempt
re-raises.  `retryAux` carries the remaining fuel, with the invariant
`fuel = max_attempts - attempt + 1`, so `fuel = 1` is the last attempt. -/

/-- The retry loop: returns the list of back-off sleeps performed and the
final outcome (`.error` is the re-raised last exception; exhausting an
empty attempt range returns `None`, modelled as `.ok ()`). -/
def retryAux (f : ℕ → Except String Unit) (backoff : ℚ) :
    ℕ → ℕ → ℚ → List ℚ × Except String Unit
  | 0, _, _ => ([], .ok ())
  | fuel + 1, attempt, current_delay =>
    match f attempt with
    | .ok u => ([], .ok u)
    | .error e =>
      if fuel = 0 then ([], .error e)
      else
        let r := retryAux f backoff fuel (attempt + 1) (current_delay * backoff)
        (current_delay :: r.1, r.2)

/-- `retry_on_error` applied to an operation `f` whose attempt number `k`
yields `f k` (defaults in the source: `max_attempts = 3`, `delay = 1.0`,
`backoff = 2.0`). -/
def retry_on_error (max_attempts : ℕ) (delay backoff : ℚ)
    (f : ℕ → Except String Unit) : List ℚ × Except String Unit :=
  retryAux f backoff max_attempts 1 delay

/-! ## The bus client's consume loop (rabbitmq_client.py)

`consume` registers `message_handler` on the queue; each delivered body
is decoded by the Schema Registry, handed to the callback, acknowledged
on success and rejected with `requeue=False` on any exception.  The
`try`/`except` inside `message_handler` is the outer `Except`: an
exception escaping it would stop the consumer. -/

/-- Broker action taken for one delivery. -/
inductive AckAction where
  | ack
  | reject (requeue : Bool)
  | autoAcked
  deriving DecidableEq, Repr

/-- `message_handler` for one delivered body (already `json.loads`-ed):
decode via `MessageFactory.from_json`, invoke the callback, `ack` unless
`auto_ack`, and on any exception `reject(requeue=False)`. -/
def message_handler (callback : Msg → Except String Unit) (auto_ack : Bool)
    (body : List (String × PyVal)) : Except String AckAction :=
  match from_json body with
  | .error _ => .ok (.reject false)
  | .ok msg =>
    match callback msg with
    | .error _ => .ok (.reject false)
    | .ok _ => .ok (if auto_ack then .autoAcked else .ack)

/-- The consumption of a queue's deliveries in order; an exception
escaping `message_handler` would terminate the consumer. -/
def consumeRun (callback : Msg → Except String Unit) (auto_ack : Bool) :
    List (List (String × PyVal)) → List AckAction
  | [] => []
  | body :: rest =>
    match message_handler callback auto_ack body with
    | .ok a => a :: consumeRun callback auto_ack rest
    | .error _ => []

/-- The queue arguments set by `declare_queue` when `dlx=True`: dead
letters go to the fanout exchange `crypto_dlx`, messages live 24 hours. -/
def queueArguments (dlx : Bool) : List (String × PyVal) :=
  if dlx then
    [("x-dead-letter-exchange", .pstr ("crypto_dlx")), ("x-message-ttl", .pint 86400000)]
  else []

/-! ## The worker supervisor (base_bot.py, class BaseBot)

The supervisor's mutable fields are a record; wall-clock instants are
integers (seconds).  `cleanupCalls` counts invocations of the `cleanup()`
hook.  The main loop `_run_loop` is driven by a list of iterations, each
carrying the instant at which it runs and whether `process()` succeeds. -/

/-- The supervisor-owned state set up in `BaseBot.__init__`. -/
structure BotState where
  running : Bool
  paused : Bool
  shutdown : Bool
  lastHeartbeat : Option ℤ
  errorCount : ℕ
  successCount : ℕ
  cleanupCalls : ℕ
  deriving DecidableEq, Repr

/-- The state after `__init__`: not running, not paused, no heartbeat. -/
def initialState : BotState :=
  { running := false, paused := false, shutdown := false,
    lastHeartbeat := none, errorCount := 0, successCount := 0, cleanupCalls := 0 }

/-- The state as `start()` enters `_run_loop` (it sets `_running = True`
and runs the initialisation hook before looping). -/
def startedState : BotState := { initialState with running := true }

/-- `BaseBot.stop`: return immediately when not running, else clear
`_running`, set the shutdown event, run `cleanup()` once and log the
final statistics. -/
def stop (s : BotState) : BotState :=
  if s.running = false then s
  else { s with running := false, shutdown := true, cleanupCalls := s.cleanupCalls + 1 }

/-- `BaseBot.pause`: a no-op unless running. -/
def pause (s : BotState) : BotState :=
  if s.running = false then s else { s with paused := true }

/-- `BaseBot.resume`: a no-op unless paused. -/
def resume (s : BotState) : BotState :=
  if s.paused = false then s else { s with paused := false }

/-- One non-paused `_run_loop` iteration up to the consecutive-error
check: `_update_heartbeat()` runs first, then `process()`; success
increments the success counter and resets the error counter, failure
increments the error counter (and backs off in `_handle_error`). -/
def stepIter (s : BotState) (now : ℤ) (ok : Bool) : BotState :=
  let s1 := { s with lastHeartbeat := some now }
  if ok then { s1 with successCount := s1.successCount + 1, errorCount := 0 }
  else { s1 with errorCount := s1.errorCount + 1 }

/-- `BaseBot._run_loop`: while running, skip work when paused, otherwise
run one iteration; when the consecutive-error count reaches
`MAX_CONSECUTIVE_ERRORS` (`threshold`), call `stop()` and break. -/
def runLoop (threshold : ℕ) : BotState → List (ℤ × Bool) → BotState
  | s, [] => s
  | s, (now, ok) :: rest =>
    if s.running = false then s
    else if s.paused = true then runLoop threshold s rest
    else
      let s2 := stepIter s now ok
      if threshold ≤ s2.errorCount then stop s2
      else runLoop threshold s2 rest

/-- A trace in which `process()` fails at each given instant. -/
def failTrace (ts : List ℤ) : List (ℤ × Bool) :=
  ts.map (fun t => (t, false))

/-- Observable events of one `_run_loop` iteration, in program order
(`_handle_error` sleeps `min(60, 5 * error_count)` after the increment). -/
inductive LoopEvent where
  | heartbeatUpd (t : ℤ)
  | processCall
  | waitInterval
  | retrySleep (d : ℕ)
  | pauseSleep
  deriving DecidableEq, Repr

/-- The events of one `_run_loop` iteration. -/
def iterEvents (s : BotState) (now : ℤ) (ok : Bool) : List LoopEvent :=
  if s.running = false then []
  else if s.paused = true then [.pauseSleep]
  else
    .heartbeatUpd now :: .processCall ::
      (if ok then [.waitInterval]
       else [.retrySleep (min 60 (5 * (stepIter s now ok).errorCount))])

/-- `BaseBot.is_healthy`: false when not `_running` or before any
heartbeat; otherwise the heartbeat must be younger than twice the
processing interval. -/
def is_healthy (interval : ℤ) (now : ℤ) (s : BotState) : Bool :=
  if s.running = false then false
  else
    match s.lastHeartbeat with
    | none => false
    | some h => decide (now - h < 2 * interval)

/-! ## Enum, timestamp and dispatch-table lemmas -/

theorem messageType_ofValue_value (t : MessageType) : MessageType.ofValue t.value = some t := by
  cases t <;> rfl

theorem messagePriority_ofValue_value (p : MessagePriority) :
    MessagePriority.ofValue p.value = some p := by
  cases p <;> rfl

theorem padDigits_length (k n : ℕ) : (padDigits k n).length = k := by
  induction k generalizing n with
  | zero => rfl
  | succ k ih => simp [padDigits, ih]

theorem digitChar_toNat_sub (m : ℕ) (h : m < 10) : (Nat.digitChar m).toNat - 48 = m := by
  revert h; revert m; decide

theorem digitChar_isDigit (m : ℕ) (h : m < 10) : (Nat.digitChar m).isDigit = true := by
  revert h; revert m; decide

theorem parseDigits_append_digit (l : List Char) (c : Char) :
    parseDigits (l ++ [c]) = 10 * parseDigits l + (c.toNat - 48) := by
  simp [parseDigits, List.foldl_append]

theorem parseDigits_padDigits (k n : ℕ) (h : n < 10 ^ k) :
    parseDigits (padDigits k n) = n := by
  induction k generalizing n with
  | zero =>
    interval_cases n
    rfl
  | succ k ih =>
    have hdiv : n / 10 < 10 ^ k := by
      rw [Nat.div_lt_iff_lt_mul (by norm_num)]
      calc n < 10 ^ (k + 1) := h
        _ = 10 ^ k * 10 := by ring
    have hmod : n % 10 < 10 := Nat.mod_lt _ (by norm_num)
    rw [padDigits, parseDigits_append_digit, ih _ hdiv, digitChar_toNat_sub _ hmod]
    omega

theorem padDigits_all_isDigit (k n : ℕ) :
    (padDigits k n).all Char.isDigit = true := by
  induction k generalizing n with
  | zero => rfl
  | succ k ih =>
    have hmod : n % 10 < 10 := Nat.mod_lt _ (by norm_num)
    simp [padDigits, List.all_append, ih, digitChar_isDigit _ hmod]

theorem readN_padDigits (k n : ℕ) (rest : List Char) (h : n < 10 ^ k) :
    readN k (padDigits k n ++ rest) = some (n, rest) := by
  have hlen : (padDigits k n).length = k := padDigits_length k n
  have htake : (padDigits k n ++ rest).take k = padDigits k n := by
    rw [List.take_append_of_le_length (le_of_eq hlen.symm)]
    simp [List.take_of_length_le (le_of_eq hlen)]
  have hdrop : (padDigits k n ++ rest).drop k = rest := by
    rw [List.drop_append_of_le_length (le_of_eq hlen.symm)]
    simp [List.drop_of_length_le (le_of_eq hlen)]
  simp [readN, htake, hdrop, hlen, padDigits_all_isDigit, parseDigits_padDigits k n h]

theorem expectChar_cons (c : Char) (r : List Char) : expectChar c (c :: r) = some r := by
  simp [expectChar]

theorem fromisoformat_isoformat (d : DateTime) (h : d.wf) :
    fromisoformat (isoformat d) = some d := by
  obtain ⟨y, mo, dy, hh, mi, s, us⟩ := d
  obtain ⟨h1, h2, h3, h4, h5, h6, h7⟩ := h
  show fromisoChars (isoChars ⟨y, mo, dy, hh, mi, s, us⟩) = some ⟨y, mo, dy, hh, mi, s, us⟩
  rw [isoChars]
  have hus : padDigits 6 us = padDigits 6 us ++ [] := by simp
  rw [fromisoChars]
  rw [readN_padDigits 4 y _ h1]
  simp only [Option.bind_eq_bind, Option.some_bind, expectChar_cons]
  rw [readN_padDigits 2 mo _ h2]
  simp only [Option.some_bind, expectChar_cons]
  rw [readN_padDigits 2 dy _ h3]
  simp only [Option.some_bind, expectChar_cons]
  rw [readN_padDigits 2 hh _ h4]
  simp only [Option.some_bind, expectChar_cons]
  rw [readN_padDigits 2 mi _ h5]
  simp only [Option.some_bind, expectChar_cons]
  rw [readN_padDigits 2 s _ h6]
  simp only [Option.some_bind, expectChar_cons]
  rw [hus, readN_padDigits 6 us _ h7]
  simp

theorem messageClassTag_self (t : MessageType) :
    messageClassTag t = none ∨ messageClassTag t = some t := by
  cases t <;> simp [messageClassTag]

/-! ## Supervisor lemmas -/

theorem failTrace_nil : failTrace [] = [] := rfl

theorem failTrace_cons (t : ℤ) (ts : List ℤ) :
    failTrace (t :: ts) = (t, false) :: failTrace ts := rfl

theorem stop_of_not_running (s : BotState) (h : s.running = false) : stop s = s := by
  simp [stop, h]

theorem stepIter_fail_errorCount (s : BotState) (t : ℤ) :
    (stepIter s t false).errorCount = s.errorCount + 1 := by
  simp [stepIter]

/-- A run of consecutive failures that stays strictly below the
consecutive-error threshold: the worker keeps running, the error counter
counts the failures, `cleanup()` is never called, and the heartbeat is
the instant of the latest iteration. -/
theorem runLoop_fail_lt (threshold : ℕ) (ts : List ℤ) (s : BotState)
    (hr : s.running = true) (hp : s.paused = false)
    (hlen : s.errorCount + ts.length < threshold) :
    (runLoop threshold s (failTrace ts)).running = true ∧
    (runLoop threshold s (failTrace ts)).paused = false ∧
    (runLoop threshold s (failTrace ts)).errorCount = s.errorCount + ts.length ∧
    (runLoop threshold s (failTrace ts)).cleanupCalls = s.cleanupCalls ∧
    (runLoop threshold s (failTrace ts)).lastHeartbeat =
      ts.getLast?.elim s.lastHeartbeat some := by
  induction ts generalizing s with
  | nil => simp [failTrace_nil, runLoop, hr, hp]
  | cons t rest ih =>
    have hcheck : ¬ threshold ≤ (stepIter s t false).errorCount := by
      rw [stepIter_fail_errorCount]
      simp only [List.length_cons] at hlen
      omega
    have h2r : (stepIter s t false).running = true := by simp [stepIter, hr]
    have h2p : (stepIter s t false).paused = false := by simp [stepIter, hp]
    have h2len : (stepIter s t false).errorCount + rest.length < threshold := by
      rw [stepIter_fail_errorCount]
      simp only [List.length_cons] at hlen
      omega
    have h2h : (stepIter s t false).lastHeartbeat = some t := by simp [stepIter]
    have h2c : (stepIter s t false).cleanupCalls = s.cleanupCalls := by simp [stepIter]
    rw [failTrace_cons, runLoop]
    simp only [hr, hp]
    rw [if_neg (by simp), if_neg (by simp), if_neg hcheck]
    obtain ⟨c1, c2, c3, c4, c5⟩ := ih (stepIter s t false) h2r h2p h2len
    refine ⟨c1, c2, ?_, ?_, ?_⟩
    · rw [c3, stepIter_fail_errorCount]
      simp only [List.length_cons]
      omega
    · rw [c4, h2c]
    · rw [c5, h2h]
      cases rest with
      | nil => simp
      | cons r rs =>
        rw [List.getLast?_cons_cons]
        cases hgl : (r :: rs).getLast? with
        | none => simp at hgl
        | some x => simp

/-- A run of consecutive failures whose length exactly reaches the
threshold: the loop calls `stop()` at the final iteration, so the worker
stops, the shutdown event is raised, and `cleanup()` runs exactly once
more than before. -/
theorem runLoop_fail_hit (threshold : ℕ) (ts : List ℤ) (s : BotState)
    (hr : s.running = true) (hp : s.paused = false)
    (hne : ts ≠ []) (hlen : s.errorCount + ts.length = threshold) :
    (runLoop threshold s (failTrace ts)).running = false ∧
    (runLoop threshold s (failTrace ts)).shutdown = true ∧
    (runLoop threshold s (failTrace ts)).cleanupCalls = s.cleanupCalls + 1 := by
  induction ts generalizing s with
  | nil => exact absurd rfl hne
  | cons t rest ih =>
    cases rest with
    | nil =>
      have hth : threshold ≤ (stepIter s t false).errorCount := by
        rw [stepIter_fail_errorCount]
        simp only [List.length_cons, List.length_nil] at hlen
        omega
      rw [failTrace_cons, failTrace_nil, runLoop]
      simp only [hr, hp]
      rw [if_neg (by simp), if_neg (by simp), if_pos hth]
      have h2r : (stepIter s t false).running = true := by simp [stepIter, hr]
      refine ⟨?_, ?_, ?_⟩ <;> simp [stop, stepIter, hr]
    | cons r rs =>
      have hcheck : ¬ threshold ≤ (stepIter s t false).errorCount := by
        rw [stepIter_fail_errorCount]
        simp only [List.length_cons] at hlen
        omega
      have h2r : (stepIter s t false).running = true := by simp [stepIter, hr]
      have h2p : (stepIter s t false).paused = false := by simp [stepIter, hp]
      have h2len : (stepIter s t false).errorCount + (r :: rs).length = threshold := by
        rw [stepIter_fail_errorCount]
        simp only [List.length_cons] at hlen ⊢
        omega
      have h2c : (stepIter s t false).cleanupCalls = s.cleanupCalls := by simp [stepIter]
      rw [failTrace_cons, runLoop]
      simp only [hr, hp]
      rw [if_neg (by simp), if_neg (by simp), if_neg hcheck]
      obtain ⟨c1, c2, c3⟩ := ih (stepIter s t false) h2r h2p (by simp) h2len
      exact ⟨c1, c2, by rw [c3, h2c]⟩

/-! ## Claim C4: threshold-many consecutive failures stop the worker,
`cleanup()` runs exactly once, and a second `stop()` changes nothing -/

/-- C4: starting from the freshly started state, a run in which
`process()` fails on exactly `threshold` consecutive iterations leaves
the worker stopped with `cleanup()` invoked exactly once, and `stop()` is
idempotent afterwards: calling it again neither calls `cleanup()` a
second time nor changes any state. -/
theorem consecutive_failures_stop_worker_cleanup_once
    (threshold : ℕ) (ts : List ℤ)
    (h1 : 1 ≤ threshold) (h2 : ts.length = threshold) :
    (runLoop threshold startedState (failTrace ts)).running = false ∧
    (runLoop threshold startedState (failTrace ts)).cleanupCalls = 1 ∧
    stop (runLoop threshold startedState (failTrace ts)) =
      runLoop threshold startedState (failTrace ts) := by
  have hne : ts ≠ [] := by
    intro h
    rw [h] at h2
    simp at h2
    omega
  obtain ⟨c1, c2, c3⟩ :=
    runLoop_fail_hit threshold ts startedState rfl rfl hne
      (by simp [startedState, initialState]; omega)
  exact ⟨c1, c3, stop_of_not_running _ c1⟩

/-- C4 witness: the default threshold `MAX_CONSECUTIVE_ERRORS = 5` with
five failing iterations. -/
theorem consecutive_failures_stop_worker_cleanup_once_witness :
    (1 ≤ 5 ∧ ([(1 : ℤ), 2, 3, 4, 5] : List ℤ).length = 5) ∧
    ((runLoop 5 startedState (failTrace [1, 2, 3, 4, 5])).running = false ∧
      (runLoop 5 startedState (failTrace [1, 2, 3, 4, 5])).cleanupCalls = 1 ∧
      stop (runLoop 5 startedState (failTrace [1, 2, 3, 4, 5])) =
        runLoop 5 startedState (failTrace [1, 2, 3, 4, 5])) :=
  ⟨by decide,
    consecutive_failures_stop_worker_cleanup_once 5 [1, 2, 3, 4, 5] (by decide) (by decide)⟩

/-! ## Claim C9: the health predicate -/

/-- C9: `is_healthy()` is true exactly when the worker is running (the
paused state keeps `_running` set, and `pause` does not affect the
predicate, as the last conjunct shows) and a heartbeat exists that is
younger than twice the interval; it is false in every other case,
including the initial no-heartbeat state and every state produced by
`stop()`. -/
theorem is_healthy_characterisation (interval now : ℤ) (s s2 : BotState) :
    (is_healthy interval now s = true ↔
      s.running = true ∧ ∃ h, s.lastHeartbeat = some h ∧ now - h < 2 * interval) ∧
    is_healthy interval now (stop s2) = false ∧
    is_healthy interval now initialState = false ∧
    is_healthy interval now (pause s) = is_healthy interval now s := by
  refine ⟨?_, ?_, ?_, ?_⟩
  · cases hr : s.running with
    | false => simp [is_healthy, hr]
    | true =>
      cases hh : s.lastHeartbeat with
      | none => simp [is_healthy, hr, hh]
      | some h => simp [is_healthy, hr, hh]
  · cases hr : s2.running with
    | false => simp [stop, hr, is_healthy]
    | true => simp [stop, hr, is_healthy]
  · simp [is_healthy, initialState]
  · cases hr : s.running with
    | false => simp [pause, hr]
    | true => simp [pause, hr, is_healthy]

/-! ## Claim C10: heartbeat updates precede `process()` and keep a
failing worker healthy until it stops -/

/-- C10: in every non-paused iteration the first two events are the
heartbeat update and the `process()` call (so the heartbeat advances even
on iterations whose `process()` raises, as the second conjunct records),
and a run of consecutive failures still below the threshold leaves the
worker running and healthy at the instant of its last iteration. -/
theorem heartbeat_before_process_keeps_failing_bot_healthy
    (threshold : ℕ) (interval : ℤ) (s : BotState) (t : ℤ) (ok : Bool) (ts : List ℤ)
    (h1 : s.running = true) (h2 : s.paused = false)
    (h3 : ts ≠ []) (h4 : ts.length < threshold) (h5 : 1 ≤ interval) :
    (iterEvents s t ok).take 2 = [LoopEvent.heartbeatUpd t, LoopEvent.processCall] ∧
    (stepIter s t ok).lastHeartbeat = some t ∧
    (runLoop threshold startedState (failTrace ts)).running = true ∧
    is_healthy interval (ts.getLast h3) (runLoop threshold startedState (failTrace ts)) = true := by
  obtain ⟨c1, c2, c3, c4, c5⟩ :=
    runLoop_fail_lt threshold ts startedState rfl rfl
      (by simp [startedState, initialState]; omega)
  have hlast : ts.getLast? = some (ts.getLast h3) := List.getLast?_eq_getLast ts h3
  refine ⟨?_, ?_, c1, ?_⟩
  · simp [iterEvents, h1, h2]
  · cases ok <;> simp [stepIter]
  · rw [hlast] at c5
    simp only [Option.elim_some] at c5
    simp [is_healthy, c1, c5]
    omega

/-- C10 witness: one failing iteration at instant 7 with threshold 2. -/
theorem heartbeat_before_process_keeps_failing_bot_healthy_witness :
    (startedState.running = true ∧ startedState.paused = false ∧
      ([(7 : ℤ)] : List ℤ) ≠ [] ∧ ([(7 : ℤ)] : List ℤ).length < 2 ∧ (1 : ℤ) ≤ 1) ∧
    ((iterEvents startedState 0 false).take 2 =
        [LoopEvent.heartbeatUpd 0, LoopEvent.processCall] ∧
      (stepIter startedState 0 false).lastHeartbeat = some 0 ∧
      (runLoop 2 startedState (failTrace [7])).running = true ∧
      is_healthy 1 (([(7 : ℤ)] : List ℤ).getLast (by decide))
        (runLoop 2 startedState (failTrace [7])) = true) :=
  ⟨by decide,
    heartbeat_before_process_keeps_failing_bot_healthy 2 1 startedState 0 false [7]
      (by decide) (by decide) (by decide) (by decide) (by decide)⟩

/-! ## Claim C1: `SignalMessage.validate()` on constraint-satisfying
field sets -/

/-- C1 (code bug): `validate()` can only ever produce `None` or `False` —
its body has no `return True` — and on the constraint-satisfying test
signal it returns `None` (falsy) rather than `True` as the claim, the
method's declared `-> bool` return type and the repository's own test expect.
(The violation half of the claim does hold: every explicit return in the
body is `return False`.) -/
theorem validate_never_returns_true :
    (∀ s : SignalMessage, s.validate = none ∨ s.validate = some false) ∧
    signalSpecOk sig001 ∧ SignalMessage.validate sig001 = none := by
  refine ⟨?_, by decide, by decide⟩
  intro s
  unfold SignalMessage.validate
  split_ifs <;> simp

/-! ## Claim C6: invalid signals are never handed to the bus client -/

/-- C6: whenever the freshly built signal's `validate()` result is falsy,
`publish_signal` returns without calling `RabbitMQClient.publish`. -/
theorem invalid_signal_never_published (bot_name message_id : String) (now : DateTime)
    (signal_id symbol signal_type timeframe : String)
    (entry_price stop_loss take_profit_1 risk_reward_ratio final_confidence : ℚ)
    (h : pyTruthy (mkSignalMessage bot_name message_id now signal_id symbol signal_type
        timeframe entry_price stop_loss take_profit_1 risk_reward_ratio
        final_confidence).validate = false) :
    publish_signal bot_name message_id now signal_id symbol signal_type timeframe
      entry_price stop_loss take_profit_1 risk_reward_ratio final_confidence = none := by
  unfold publish_signal
  simp [h]

/-- C6 witness: a BUY signal whose reward:risk ratio 2.0 is below the
minimum fails validation and is dropped. -/
theorem invalid_signal_never_published_witness :
    pyTruthy (mkSignalMessage ("b") ("m") ⟨2024, 1, 1, 0, 0, 0, 0⟩ ("S") ("BTCUSDT")
        ("BUY") ("1h") 45000 44000 49000 2 50).validate = false ∧
    publish_signal ("b") ("m") ⟨2024, 1, 1, 0, 0, 0, 0⟩ ("S") ("BTCUSDT") ("BUY") ("1h")
      45000 44000 49000 2 50 = none :=
  ⟨by decide,
    invalid_signal_never_published ("b") ("m") ⟨2024, 1, 1, 0, 0, 0, 0⟩ ("S") ("BTCUSDT")
      ("BUY") ("1h") 45000 44000 49000 2 50 (by decide)⟩

/-! ## Claim C7: the fixed priority rules and the BTCUSDT scenario -/

/-- C7 (code bug): the fixed priority rules and the routing key are
exactly as claimed — confidence 85.5 maps to `HIGH`, the notification
table maps INFO/WARNING/ERROR/ALERT to LOW/NORMAL/HIGH/CRITICAL, news
impact HIGH/CRITICAL maps to `HIGH` else `NORMAL`, and the routing key is
`signal.BTCUSDT.BUY` — but the scenario signal is dropped instead of
published: its constraint-satisfying fields make `validate()` return
`None`, not `True`, so `publish_signal` returns before reaching the bus
client. -/
theorem scenario_signal_dropped_despite_matching_rules :
    publish_signal ("test-publisher") ("test-publisher_000000000001")
        ⟨2024, 1, 1, 0, 0, 0, 0⟩ ("SIG_001") ("BTCUSDT") ("BUY") ("4h")
        45000 44000 49000 4 (mkRat 171 2) = none ∧
    signalSpecOk scenarioSignal ∧
    scenarioSignal.validate = none ∧
    signalPriority (mkRat 171 2) = MessagePriority.HIGH ∧
    RoutingKey.signal ("BTCUSDT") ("BUY") = "signal.BTCUSDT.BUY" ∧
    notificationTypePriority ("INFO") = MessagePriority.LOW ∧
    notificationTypePriority ("WARNING") = MessagePriority.NORMAL ∧
    notificationTypePriority ("ERROR") = MessagePriority.HIGH ∧
    notificationTypePriority ("ALERT") = MessagePriority.CRITICAL ∧
    newsImpactPriority ("HIGH") = MessagePriority.HIGH ∧
    newsImpactPriority ("CRITICAL") = MessagePriority.HIGH ∧
    newsImpactPriority ("MEDIUM") = MessagePriority.NORMAL := by
  decide

/-! ## Claim C5: the retry policy's delays -/

/-- The retry loop when every attempt fails: `fuel` attempts starting at
attempt number `a` with current delay `d` sleep a geometric sequence of
`fuel - 1` delays and re-raise the last attempt's error. -/
theorem retryAux_all_fail (errs : ℕ → String) (b : ℚ) :
    ∀ (fuel a : ℕ) (d : ℚ), 1 ≤ fuel →
      (retryAux (fun k => .error (errs k)) b fuel a d).1.length = fuel - 1 ∧
      (∀ i, i < fuel - 1 →
        (retryAux (fun k => .error (errs k)) b fuel a d).1.get? i = some (d * b ^ i)) ∧
      (retryAux (fun k => .error (errs k)) b fuel a d).2 = .error (errs (a + fuel - 1)) := by
  intro fuel
  induction fuel with
  | zero => intro a d h; omega
  | succ f ih =>
    intro a d _
    cases f with
    | zero =>
      refine ⟨rfl, ?_, by simp [retryAux]⟩
      intro i hi
      omega
    | succ f2 =>
      obtain ⟨l1, l2, l3⟩ := ih (a + 1) (d * b) (by omega)
      have hunf : retryAux (fun k => .error (errs k)) b (f2 + 1 + 1) a d =
          (d :: (retryAux (fun k => .error (errs k)) b (f2 + 1) (a + 1) (d * b)).1,
            (retryAux (fun k => .error (errs k)) b (f2 + 1) (a + 1) (d * b)).2) := rfl
      rw [hunf]
      refine ⟨?_, ?_, ?_⟩
      · simp only [List.length_cons, l1]
        omega
      · intro i hi
        cases i with
        | zero => simp
        | succ j =>
          have hj : j < f2 + 1 - 1 := by omega
          simp only [List.get?_cons_succ]
          rw [l2 j hj, pow_succ]
          congr 1
          ring
      · rw [l3]
        have heq : a + 1 + (f2 + 1) - 1 = a + (f2 + 1 + 1) - 1 := by omega
        rw [heq]

/-- C5 counterexample: with the source's default parameters
(`max_attempts = 3`, `delay = 1.0`, `backoff = 2.0`) and every attempt
failing, only two back-off sleeps happen — there is no delay before a
3rd retry, although the claim asserts one for every `k` in
`1..maxAttempts`. -/
theorem retry_no_maxAttempts_th_delay :
    (retry_on_error 3 1 2 (fun _ => .error ("boom"))).1.length = 2 ∧
    (retry_on_error 3 1 2 (fun _ => .error ("boom"))).1.get? 2 = none := by
  decide

/-- C5 (amended): when every attempt fails, the delay before the `k`-th
retry is exactly `delay * backoff ^ (k-1)` (zero-indexed below), with no
maximum-delay cap, for `k = 1 .. maxAttempts - 1` — the final failing
attempt re-raises immediately, so there are only `maxAttempts - 1`
retries — and the error of the last attempt is surfaced to the caller. -/
theorem retry_delays_geometric_last_error_surfaced
    (max_attempts : ℕ) (delay backoff : ℚ) (errs : ℕ → String)
    (h : 1 ≤ max_attempts) :
    (retry_on_error max_attempts delay backoff (fun k => .error (errs k))).1.length =
      max_attempts - 1 ∧
    (∀ i, i < max_attempts - 1 →
      (retry_on_error max_attempts delay backoff (fun k => .error (errs k))).1.get? i =
        some (delay * backoff ^ i)) ∧
    (retry_on_error max_attempts delay backoff (fun k => .error (errs k))).2 =
      .error (errs max_attempts) := by
  obtain ⟨l1, l2, l3⟩ := retryAux_all_fail errs backoff max_attempts 1 delay h
  refine ⟨l1, l2, ?_⟩
  rw [retry_on_error, l3]
  have heq : 1 + max_attempts - 1 = max_attempts := by omega
  rw [heq]

/-- C5 witness: defaults `max_attempts = 3`, `delay = 1`, `backoff = 2`:
two sleeps of 1 and 2 seconds, then the last error surfaces. -/
theorem retry_delays_geometric_last_error_surfaced_witness :
    (1 ≤ 3) ∧
    ((retry_on_error 3 1 2 (fun k => .error ((fun _ => "boom") k))).1.length = 3 - 1 ∧
      (∀ i, i < 3 - 1 →
        (retry_on_error 3 1 2 (fun k => .error ((fun _ => "boom") k))).1.get? i =
          some (1 * 2 ^ i)) ∧
      (retry_on_error 3 1 2 (fun k => .error ((fun _ => "boom") k))).2 =
        .error ((fun _ => "boom") 3)) :=
  ⟨by decide, retry_delays_geometric_last_error_surfaced 3 1 2 (fun _ => "boom") (by decide)⟩

/-! ## Claim C8: the consume loop acks successes, dead-letters failures,
and keeps consuming -/

/-- C8: with the default `auto_ack = False`, every delivered body yields
exactly one broker action — a decode failure or a raising handler causes
`reject(requeue=False)` (routed to the dead-letter exchange, which
`declare_queue` wires as the fanout `crypto_dlx`), a successful handler
causes `ack` — and a failure on one message never stops the consumption
of the remaining deliveries. -/
theorem consume_acks_success_rejects_failures_continues
    (callback : Msg → Except String Unit) (bodies : List (List (String × PyVal))) :
    consumeRun callback false bodies =
      bodies.map (fun body =>
        match from_json body with
        | .error _ => AckAction.reject false
        | .ok m =>
          match callback m with
          | .error _ => AckAction.reject false
          | .ok _ => AckAction.ack) ∧
    queueArguments true =
      [("x-dead-letter-exchange", .pstr ("crypto_dlx")), ("x-message-ttl", .pint 86400000)] := by
  refine ⟨?_, rfl⟩
  induction bodies with
  | nil => rfl
  | cons b rest ih =>
    cases hfj : from_json b with
    | error e => simp [consumeRun, message_handler, hfj, ih]
    | ok m =>
      cases hcb : callback m with
      | error e => simp [consumeRun, message_handler, hfj, hcb, ih]
      | ok u => simp [consumeRun, message_handler, hfj, hcb, ih]

/-! ## Wire round-trip lemmas (claims C2 and C3) -/

/-- When the metadata and payload values contain no `Decimal`
(`_convert_decimals` leaves them unchanged), `to_dict` is the plain wire
dictionary. -/
theorem to_dict_clean (m : Msg)
    (h2 : convertDecimalsKV m.metadata = m.metadata)
    (h3 : convertDecimalsKV m.fields = m.fields) :
    m.to_dict = wireList m.message_type m.message_id m.timestamp m.source_bot
      m.priority m.metadata m.fields := by
  rw [Msg.to_dict, wireList]
  simp [convertDecimalsKV, convertDecimals, h2, h3]

/-- The wire dictionary is JSON-serializable when the metadata and
payload values are. -/
theorem serializableKV_wireList (t : MessageType) (mid src : String) (ts : DateTime)
    (p : MessagePriority) (meta fs : List (String × PyVal))
    (h4 : serializableKV meta = true) (h5 : serializableKV fs = true) :
    serializableKV (wireList t mid ts src p meta fs) = true := by
  simp [wireList, serializableKV, serializable, h4, h5]

/-- `from_dict` on a well-formed wire dictionary rebuilds the envelope:
the enum, priority and timestamp conversions invert `to_dict`'s, and the
non-envelope keys become the payload fields again. -/
theorem from_dict_wireList (t : MessageType) (mid src : String) (ts : DateTime)
    (p : MessagePriority) (meta fs : List (String × PyVal))
    (hts : ts.wf)
    (hfs : fs.all (fun kv => !(baseKeys.contains kv.1)) = true)
    (hcls : messageClassTag t = none → fs = []) :
    from_dict t (wireList t mid ts src p meta fs) = .ok ⟨t, mid, ts, src, p, meta, fs⟩ := by
  have hmid : reqStr ("message_id") (wireList t mid ts src p meta fs) = .ok mid := by
    simp [reqStr, lookupKey, wireList, List.find?]
  have hts2 : parseTimestamp (wireList t mid ts src p meta fs) = .ok ts := by
    simp [parseTimestamp, lookupKey, wireList, List.find?, fromisoformat_isoformat ts hts]
  have hsrc : reqStr ("source_bot") (wireList t mid ts src p meta fs) = .ok src := by
    simp [reqStr, lookupKey, wireList, List.find?]
  have hprio : parsePriority (wireList t mid ts src p meta fs) = .ok p := by
    simp [parsePriority, lookupKey, wireList, List.find?, messagePriority_ofValue_value]
  have hmeta : parseMetadata (wireList t mid ts src p meta fs) = .ok meta := by
    simp [parseMetadata, lookupKey, wireList, List.find?]
  have hfilter : (wireList t mid ts src p meta fs).filter
      (fun kv => !(baseKeys.contains kv.1)) = fs := by
    have hself : fs.filter (fun kv => !(baseKeys.contains kv.1)) = fs :=
      List.filter_eq_self.mpr (fun a ha => List.all_eq_true.mp hfs a ha)
    simp [wireList, baseKeys, List.filter] at hself ⊢
    exact hself
  rw [from_dict, hmid, hts2, hsrc, hprio, hmeta]
  rcases messageClassTag_self t with hnone | hsome
  · rw [hnone, hfilter, hcls hnone]
  · rw [hsome, hfilter]

/-! ## Claim C2: the envelope round trip -/

/-- C2 counterexample: for the news-article variant the round trip does
not reproduce the message — `to_json` already fails with a `TypeError`,
because `to_dict` converts only the envelope `timestamp` to ISO text and
leaves the `published_at` payload datetime for `json.dumps` to choke on. -/
theorem roundTrip_news_article_fails :
    roundTrip newsArticleExample = .error ("TypeError") := by
  simp [roundTrip, Msg.to_json, Msg.to_dict, newsArticleExample,
    convertDecimalsKV, convertDecimals, serializableKV, serializable, Except.bind]

/-- C2 (amended): the round trip reproduces every field of the message
for exactly the envelopes whose metadata and payload values contain no
`Decimal` (`to_dict` rewrites those to floats and `from_dict` never
restores them) and no `datetime` (those make `to_json` raise), whose
payload keys do not collide with envelope keys, and whose tag owns a
payload class whenever payload fields are present. -/
theorem roundTrip_reproduces_clean_messages (m : Msg)
    (h1 : m.timestamp.wf)
    (h2 : convertDecimalsKV m.metadata = m.metadata)
    (h3 : convertDecimalsKV m.fields = m.fields)
    (h4 : serializableKV m.metadata = true)
    (h5 : serializableKV m.fields = true)
    (h6 : m.fields.all (fun kv => !(baseKeys.contains kv.1)) = true)
    (h7 : messageClassTag m.message_type = none → m.fields = []) :
    roundTrip m = .ok m := by
  have hdict := to_dict_clean m h2 h3
  have hser := serializableKV_wireList m.message_type m.message_id m.source_bot
    m.timestamp m.priority m.metadata m.fields h4 h5
  have hjson : m.to_json = .ok (wireList m.message_type m.message_id m.timestamp
      m.source_bot m.priority m.metadata m.fields) := by
    rw [Msg.to_json]
    simp [hdict, hser]
  have hlk : lookupKey ("message_type") (wireList m.message_type m.message_id
      m.timestamp m.source_bot m.priority m.metadata m.fields) =
      some (.pstr m.message_type.value) := by
    simp [lookupKey, wireList, List.find?]
  have hcm : create_message (wireList m.message_type m.message_id m.timestamp
      m.source_bot m.priority m.metadata m.fields) = .ok m := by
    rw [create_message, hlk]
    simp only [messageType_ofValue_value]
    exact from_dict_wireList m.message_type m.message_id m.source_bot m.timestamp
      m.priority m.metadata m.fields h1 h6 h7
  rw [roundTrip, hjson]
  exact hcm

/-- C2 witness: the signal-message wire example round-trips to itself. -/
theorem roundTrip_reproduces_clean_messages_witness :
    (signalWireExample.timestamp.wf ∧
      convertDecimalsKV signalWireExample.metadata = signalWireExample.metadata ∧
      convertDecimalsKV signalWireExample.fields = signalWireExample.fields ∧
      serializableKV signalWireExample.metadata = true ∧
      serializableKV signalWireExample.fields = true ∧
      signalWireExample.fields.all (fun kv => !(baseKeys.contains kv.1)) = true ∧
      (messageClassTag signalWireExample.message_type = none →
        signalWireExample.fields = [])) ∧
    roundTrip signalWireExample = .ok signalWireExample :=
  ⟨⟨by decide,
    by simp [signalWireExample, convertDecimalsKV, convertDecimals],
    by simp [signalWireExample, convertDecimalsKV, convertDecimals],
    by simp [signalWireExample, serializableKV, serializable],
    by simp [signalWireExample, serializableKV, serializable],
    by simp [signalWireExample, baseKeys],
    by intro h; simp [signalWireExample, messageClassTag] at h⟩,
  roundTrip_reproduces_clean_messages signalWireExample
    (by decide)
    (by simp [signalWireExample, convertDecimalsKV, convertDecimals])
    (by simp [signalWireExample, convertDecimalsKV, convertDecimals])
    (by simp [signalWireExample, serializableKV, serializable])
    (by simp [signalWireExample, serializableKV, serializable])
    (by simp [signalWireExample, baseKeys])
    (by intro h; simp [signalWireExample, messageClassTag] at h)⟩

/-! ## Claim C3: decoding unrecognized discriminators -/

/-- C3 counterexample: a wire object whose `message_type` is not a member
of the `MessageType` enum makes decoding fail — `create_message` calls
the enum constructor, which raises `ValueError` — instead of returning a
generic envelope with the raw payload. -/
theorem unknown_discriminator_fails_decoding :
    from_json [("message_type", PyVal.pstr ("bogus_type"))] = .error ("ValueError") := by
  rfl

/-- C3 (amended): the forward-compatibility fallback exists only inside
the enum: a discriminator that is a `MessageType` member without a
dedicated payload class decodes through the `BaseMessage` fallback
(succeeding on envelope-only payloads), while any discriminator outside
the enum raises `ValueError` and decoding fails. -/
theorem discriminator_dispatch_behaviour :
    (∀ (s : String) (rest : List (String × PyVal)), MessageType.ofValue s = none →
      from_json (("message_type", PyVal.pstr s) :: rest) = .error ("ValueError")) ∧
    (∀ (t : MessageType) (mid src : String) (ts : DateTime) (p : MessagePriority)
        (meta : List (String × PyVal)), messageClassTag t = none → ts.wf →
      from_json (wireList t mid ts src p meta []) = .ok ⟨t, mid, ts, src, p, meta, []⟩) := by
  constructor
  · intro s rest h
    simp [from_json, create_message, lookupKey, List.find?, h]
  · intro t mid src ts p meta hcls hts
    have hlk : lookupKey ("message_type") (wireList t mid ts src p meta []) =
        some (.pstr t.value) := by
      simp [lookupKey, wireList, List.find?]
    rw [from_json, create_message, hlk]
    simp only [messageType_ofValue_value]
    exact from_dict_wireList t mid src ts p meta [] hts (by rfl) (fun _ => rfl)

/-- C3 witness: `bogus_type` fails; the class-less enum member `alert`
falls back to a `BaseMessage` envelope. -/
theorem discriminator_dispatch_behaviour_witness :
    (MessageType.ofValue ("bogus_type") = none ∧
      from_json [("message_type", PyVal.pstr ("bogus_type"))] = .error ("ValueError")) ∧
    (messageClassTag MessageType.ALERT = none ∧ DateTime.wf ⟨2024, 5, 1, 12, 0, 0, 0⟩ ∧
      from_json (wireList MessageType.ALERT ("b_1") ⟨2024, 5, 1, 12, 0, 0, 0⟩ ("b")
          MessagePriority.NORMAL [] []) =
        .ok ⟨MessageType.ALERT, "b_1", ⟨2024, 5, 1, 12, 0, 0, 0⟩, "b",
          MessagePriority.NORMAL, [], []⟩) :=
  ⟨⟨by rfl, discriminator_dispatch_behaviour.1 ("bogus_type") [] (by rfl)⟩,
    ⟨by rfl, by decide,
      discriminator_dispatch_behaviour.2 MessageType.ALERT ("b_1") ("b")
        ⟨2024, 5, 1, 12, 0, 0, 0⟩ MessagePriority.NORMAL [] (by rfl) (by decide)⟩⟩

end CryptoSignal
